import Mathlib

/-!
Shallow embedding of `pubmed_rct.py` (the `PubmedRCTReader` dataset adapter):
its JSON line parsing, record-field extraction, instance construction, and the
config-driven factory, together with theorems about the resulting behaviour.

The reader's host environment (the `json` standard library, dict/iteration
semantics of the interpreter, and the host framework's `Params`, `Tokenizer`
and `TokenIndexer` collaborators) is modelled just as far as the code under
verification observes it.
-/

set_option autoImplicit false
set_option maxRecDepth 100000

namespace PubmedRCT

/-- JSON values as decoded by `json.loads`: objects become key/value maps in
insertion order with a later duplicate key overwriting the value of the
earlier one (Python `dict` semantics).  Number literals keep their raw lexeme,
since the reader never does arithmetic on them. -/
inductive Json where
  | null
  | bool (b : Bool)
  | num (raw : String)
  | str (s : String)
  | arr (items : List Json)
  | obj (entries : List (String × Json))

/-- Errors the Python code can raise and propagate: `json.JSONDecodeError`,
`KeyError`, `TypeError`, and the host framework's `ConfigurationError`. -/
inductive PyError where
  | jsonDecodeError (msg : String)
  | keyError (key : String)
  | typeError (msg : String)
  | configurationError (msg : String)
deriving DecidableEq

/-- Whitespace accepted between JSON tokens by `json.loads`. -/
def isJsonWs (c : Char) : Bool :=
  c = ' ' || c = '\t' || c = '\n' || c = '\r'

/-- Drop leading JSON whitespace. -/
def skipWs : List Char → List Char
  | [] => []
  | c :: cs => if isJsonWs c then skipWs cs else c :: cs

/-- One-character string escapes of JSON. -/
def escChar : Char → Option Char
  | '"' => some '"'
  | '\\' => some '\\'
  | '/' => some '/'
  | 'b' => some (Char.ofNat 8)
  | 'f' => some (Char.ofNat 12)
  | 'n' => some '\n'
  | 'r' => some '\r'
  | 't' => some '\t'
  | _ => none

/-- Hexadecimal digit value, for `\uXXXX` escapes. -/
def hexVal (c : Char) : Option Nat :=
  if '0' ≤ c ∧ c ≤ '9' then some (c.toNat - '0'.toNat)
  else if 'a' ≤ c ∧ c ≤ 'f' then some (c.toNat - 'a'.toNat + 10)
  else if 'A' ≤ c ∧ c ≤ 'F' then some (c.toNat - 'A'.toNat + 10)
  else none

/-- Body of a JSON string, after the opening quote has been consumed.
Returns the decoded characters and the input remaining after the closing
quote. -/
def parseStringChars : List Char → Except String (List Char × List Char)
  | [] => .error "Unterminated string"
  | '"' :: cs => .ok ([], cs)
  | '\\' :: 'u' :: a :: b :: c :: d :: cs =>
    match hexVal a, hexVal b, hexVal c, hexVal d with
    | some ha, some hb, some hc, some hd =>
      match parseStringChars cs with
      | .ok (s, rest) => .ok (Char.ofNat (((ha * 16 + hb) * 16 + hc) * 16 + hd) :: s, rest)
      | .error e => .error e
    | _, _, _, _ => .error "Invalid \\uXXXX escape"
  | '\\' :: e :: cs =>
    match escChar e with
    | some c =>
      match parseStringChars cs with
      | .ok (s, rest) => .ok (c :: s, rest)
      | .error e => .error e
    | none => .error "Invalid \\escape"
  | c :: cs =>
    match parseStringChars cs with
    | .ok (s, rest) => .ok (c :: s, rest)
    | .error e => .error e

/-- Longest leading run of decimal digits. -/
def takeDigits (cs : List Char) : List Char × List Char :=
  (cs.takeWhile Char.isDigit, cs.dropWhile Char.isDigit)

/-- Integer part of a JSON number: `0`, or a nonzero digit followed by digits. -/
def parseIntPart : List Char → Except String (List Char × List Char)
  | '0' :: cs => .ok (['0'], cs)
  | c :: cs =>
    if c.isDigit then
      let (ds, rest) := takeDigits cs
      .ok (c :: ds, rest)
    else .error "Expecting value"
  | [] => .error "Expecting value"

/-- Optional fractional part `.digits`; on no match the input is untouched. -/
def parseFracPart : List Char → List Char × List Char
  | '.' :: cs =>
    let (ds, rest) := takeDigits cs
    if ds.isEmpty then ([], '.' :: cs) else ('.' :: ds, rest)
  | cs => ([], cs)

/-- Optional exponent part `[eE][+-]?digits`; on no match the input is
untouched. -/
def parseExpPart (cs : List Char) : List Char × List Char :=
  match cs with
  | e :: rest =>
    if e = 'e' ∨ e = 'E' then
      match rest with
      | s :: rest2 =>
        if s = '+' ∨ s = '-' then
          let (ds, r) := takeDigits rest2
          if ds.isEmpty then ([], cs) else (e :: s :: ds, r)
        else
          let (ds, r) := takeDigits rest
          if ds.isEmpty then ([], cs) else (e :: ds, r)
      | [] => ([], cs)
    else ([], cs)
  | [] => ([], cs)

/-- A JSON number literal, kept as its raw lexeme. -/
def parseNum (cs : List Char) : Except String (Json × List Char) :=
  let (neg, cs1) := match cs with
    | '-' :: r => (['-'], r)
    | _ => (([] : List Char), cs)
  match parseIntPart cs1 with
  | .error e => .error e
  | .ok (ip, r1) =>
    let (fp, r2) := parseFracPart r1
    let (ep, r3) := parseExpPart r2
    .ok (.num (String.mk (neg ++ ip ++ fp ++ ep)), r3)

/-- Python `dict` insertion `d[k] = v`: an existing key keeps its position and
gets the new value, a new key is appended. -/
def dictInsert (kvs : List (String × Json)) (k : String) (v : Json) :
    List (String × Json) :=
  if kvs.any (fun kv => kv.1 == k) then
    kvs.map (fun kv => if kv.1 == k then (k, v) else kv)
  else kvs ++ [(k, v)]

mutual

/-- One JSON value (fuel-bounded recursion; `jsonLoads` supplies ample fuel). -/
def parseVal : Nat → List Char → Except String (Json × List Char)
  | 0, _ => .error "Recursion limit"
  | fuel + 1, cs =>
    match skipWs cs with
    | [] => .error "Expecting value"
    | '"' :: cs1 =>
      match parseStringChars cs1 with
      | .ok (s, rest) => .ok (.str (String.mk s), rest)
      | .error e => .error e
    | '{' :: cs1 => parseObjRest fuel cs1 true []
    | '[' :: cs1 => parseArrRest fuel cs1 true []
    | 't' :: 'r' :: 'u' :: 'e' :: rest => .ok (.bool true, rest)
    | 'f' :: 'a' :: 'l' :: 's' :: 'e' :: rest => .ok (.bool false, rest)
    | 'n' :: 'u' :: 'l' :: 'l' :: rest => .ok (.null, rest)
    | cs1 => parseNum cs1

/-- Elements of a JSON array, after `[`; `first` is true when no element has
been read yet (so `]` closes an empty array). -/
def parseArrRest : Nat → List Char → Bool → List Json → Except String (Json × List Char)
  | 0, _, _, _ => .error "Recursion limit"
  | fuel + 1, cs, first, acc =>
    match first, skipWs cs with
    | true, ']' :: rest => .ok (.arr [], rest)
    | _, cs1 =>
      match parseVal fuel cs1 with
      | .error e => .error e
      | .ok (v, r) =>
        match skipWs r with
        | ',' :: r2 => parseArrRest fuel r2 false (acc ++ [v])
        | ']' :: r2 => .ok (.arr (acc ++ [v]), r2)
        | _ => .error "Expecting delimiter"

/-- Members of a JSON object, after `{`; keys collapse via `dictInsert` the
way `json.loads` builds its `dict`. -/
def parseObjRest : Nat → List Char → Bool → List (String × Json) → Except String (Json × List Char)
  | 0, _, _, _ => .error "Recursion limit"
  | fuel + 1, cs, first, acc =>
    match first, skipWs cs with
    | true, '}' :: rest => .ok (.obj [], rest)
    | _, '"' :: cs1 =>
      match parseStringChars cs1 with
      | .error e => .error e
      | .ok (k, r) =>
        match skipWs r with
        | ':' :: r1 =>
          match parseVal fuel r1 with
          | .error e => .error e
          | .ok (v, r2) =>
            let acc1 := dictInsert acc (String.mk k) v
            match skipWs r2 with
            | ',' :: r3 => parseObjRest fuel r3 false acc1
            | '}' :: r3 => .ok (.obj acc1, r3)
            | _ => .error "Expecting delimiter"
        | _ => .error "Expecting colon delimiter"
    | _, _ => .error "Expecting property name"

end

/-- Modelled from the spec: `json.loads` on one line of a line-delimited JSON
file — parse exactly one JSON value, allowing surrounding whitespace and
rejecting trailing garbage; a line holding no JSON value (e.g. an empty or
whitespace-only line) is a parse error. -/
def jsonLoads (s : String) : Except PyError Json :=
  match parseVal (2 * s.length + 2) s.data with
  | .error msg => .error (.jsonDecodeError msg)
  | .ok (v, rest) =>
    if (skipWs rest).isEmpty then .ok v
    else .error (.jsonDecodeError "Extra data")

/-- Python truthiness of a string: non-empty. -/
def strTruthy (s : String) : Bool := !(s == "")

/-- Whether a JSON number lexeme denotes zero: its mantissa (the part before
any exponent marker) holds no nonzero digit. -/
def numIsZero (raw : String) : Bool :=
  (raw.data.takeWhile (fun c => c ≠ 'e' ∧ c ≠ 'E')).all
    (fun c => !(c.isDigit && c != '0'))

/-- Python truthiness of a decoded JSON value. -/
def Json.truthy : Json → Bool
  | .null => false
  | .bool b => b
  | .num raw => !numIsZero raw
  | .str s => strTruthy s
  | .arr items => !items.isEmpty
  | .obj entries => !entries.isEmpty

/-- Python subscription `x["k"]` on a decoded JSON value: key lookup on a
dict, `KeyError` on a missing key, `TypeError` on non-dict values. -/
def Json.getItem : Json → String → Except PyError Json
  | .obj kvs, k =>
    match kvs.find? (fun kv => kv.1 == k) with
    | some kv => .ok kv.2
    | none => .error (.keyError k)
  | .str _, _ => .error (.typeError "string indices must be integers")
  | .arr _, _ => .error (.typeError "list indices must be integers")
  | .null, _ => .error (.typeError "NoneType is not subscriptable")
  | .bool _, _ => .error (.typeError "bool is not subscriptable")
  | .num _, _ => .error (.typeError "number is not subscriptable")

/-- Python iteration `[... for t in x]` over a decoded JSON value: a list
yields its items, a string its characters, a dict its keys; other values are
not iterable. -/
def pyIter : Json → Except PyError (List Json)
  | .arr items => .ok items
  | .str s => .ok (s.data.map (fun c => .str (String.mk [c])))
  | .obj entries => .ok (entries.map (fun kv => .str kv.1))
  | .null => .error (.typeError "NoneType object is not iterable")
  | .bool _ => .error (.typeError "bool object is not iterable")
  | .num _ => .error (.typeError "number object is not iterable")

/-- `allennlp.data.tokenizers.Token`: `Token(t)` wraps the given text. -/
structure Token (α : Type) where
  text : α
deriving DecidableEq

/-- The fields the adapter builds: `TextField(tokens, token_indexers)` and
`LabelField(label)`.  `α` is the type of token texts, `β` the type of label
values, `I` the type of the injected token-indexer mapping. -/
inductive Field (α β I : Type) where
  | textField (tokens : List (Token α)) (token_indexers : I)
  | labelField (label : β)

/-- `allennlp.data.instance.Instance`: a dict of named fields, in insertion
order. -/
structure Instance (α β I : Type) where
  fields : List (String × Field α β I)

/-- Field lookup by name on an instance. -/
def Instance.getField {α β I : Type} (inst : Instance α β I) (name : String) :
    Option (Field α β I) :=
  (inst.fields.find? (fun kv => kv.1 == name)).map (fun kv => kv.2)

/-- Token texts of a text field (`none` on a label field). -/
def Field.tokenTexts {α β I : Type} : Field α β I → Option (List α)
  | .textField tokens _ => some (tokens.map (fun t => t.text))
  | .labelField _ => none

/-- `PubmedRCTReader.__init__`: stores the injected tokenizer and
token-indexer mapping (`T` and `I` are the collaborators' types; both are
opaque to the adapter) and the `lazy` flag passed to the base class. -/
structure PubmedRCTReader (T I : Type) where
  tokenizer : T
  token_indexers : I
  lazy : Bool

/-- Truthiness of the optional `label` argument (`None` is falsy). -/
def labelTruthy {β : Type} (truthy : β → Bool) : Option β → Bool
  | none => false
  | some b => truthy b

/-- `PubmedRCTReader.text_to_instance`: wrap each entry of `sent` and `pos`
as a `Token`, build a `TextField` for each against the reader's
`token_indexers`, and add a `LabelField` exactly when `label` is truthy
(the Python `if label:`, whose truthiness test for values of type `β` is
passed as `truthy`). -/
def PubmedRCTReader.text_to_instance {T I α β : Type} (r : PubmedRCTReader T I)
    (truthy : β → Bool) (sent : List α) (pos : List α)
    (label : Option β := none) : Instance α β I :=
  let sent_tokens := sent.map Token.mk
  let pos_tokens := pos.map Token.mk
  let fields : List (String × Field α β I) :=
    [("sentence", Field.textField sent_tokens r.token_indexers),
     ("pos", Field.textField pos_tokens r.token_indexers)]
  Instance.mk
    (match label with
     | some lab => if truthy lab then fields ++ [("label", Field.labelField lab)] else fields
     | none => fields)

/-- The body of the `for line in file` loop of `PubmedRCTReader._read`:
`json.loads` the line, extract `example["label"]`, `example["sentence"]`,
`example["pos"]` (in that order), and build the instance.  The list
comprehensions `[Token(t) for t in sent]` iterate the extracted values, which
`pyIter` models; at the read level token texts and labels are decoded JSON
values, so `text_to_instance` is instantiated at `α = β = Json`. -/
def processLine {T I : Type} (r : PubmedRCTReader T I) (line : String) :
    Except PyError (Instance Json Json I) :=
  match jsonLoads line with
  | .error e => .error e
  | .ok ex =>
    match ex.getItem "label" with
    | .error e => .error e
    | .ok label =>
      match ex.getItem "sentence" with
      | .error e => .error e
      | .ok sent =>
        match ex.getItem "pos" with
        | .error e => .error e
        | .ok pos =>
          match pyIter sent with
          | .error e => .error e
          | .ok sentItems =>
            match pyIter pos with
            | .error e => .error e
            | .ok posItems =>
              .ok (r.text_to_instance Json.truthy sentItems posItems (some label))

/-- `PubmedRCTReader._read` as a generator over the file's lines (the lines
exactly as Python's file iteration produces them, newline terminators
included; resolving the path via `cached_path` and opening the file are
host-side and precede this loop).  The result is the sequence of instances
yielded before the loop ends, paired with the uncaught error that aborted
it, or `none` when every line was consumed. -/
def PubmedRCTReader._read {T I : Type} (r : PubmedRCTReader T I) :
    List String → List (Instance Json Json I) × Option PyError
  | [] => ([], none)
  | line :: rest =>
    match processLine r line with
    | .ok inst =>
      let res := r._read rest
      (inst :: res.1, res.2)
    | .error e => ([], some e)

/-- Modelled from the spec: the host framework's `Params` configuration
object, a dict of option names to (JSON-like) values. -/
structure Params where
  entries : List (String × Json)

/-- Modelled from the spec: `Params.pop(key, default)` removes and returns
the value at `key`, or the default when absent. -/
def Params.pop (p : Params) (k : String) (d : Json) : Json × Params :=
  match p.entries.find? (fun kv => kv.1 == k) with
  | some kv => (kv.2, ⟨p.entries.filter (fun kv => !(kv.1 == k))⟩)
  | none => (d, p)

/-- Modelled from the spec: `Params.assert_empty(class_name)` raises a
`ConfigurationError` naming the class when any key is left. -/
def Params.assert_empty (p : Params) (name : String) : Except PyError Unit :=
  if p.entries.isEmpty then .ok ()
  else .error (.configurationError ("Extra parameters passed to " ++ name))

/-- Modelled from the spec: the host framework's tokenizer factory
`Tokenizer.from_params`; the adapter only stores the result, so the model
keeps the configuration it was built from. -/
structure Tokenizer where
  cfg : Json

def Tokenizer.from_params (j : Json) : Tokenizer := ⟨j⟩

/-- Modelled from the spec: the host framework's token-indexer-dict factory
`TokenIndexer.dict_from_params`; the adapter only stores the result. -/
structure TokenIndexerDict where
  cfg : Json

def TokenIndexer.dict_from_params (j : Json) : TokenIndexerDict := ⟨j⟩

/-- `PubmedRCTReader.from_params`: pop the two recognized options, fail on
any leftover key via `assert_empty`, and construct the reader (the `lazy`
flag keeps its `__init__` default `False`). -/
def PubmedRCTReader.from_params (params : Params) :
    Except PyError (PubmedRCTReader Tokenizer TokenIndexerDict) :=
  let p1 := params.pop "tokenizer" (.obj [])
  let p2 := p1.2.pop "token_indexers" (.obj [])
  match p2.2.assert_empty "PubmedRCTReader" with
  | .error e => .error e
  | .ok _ =>
    .ok { tokenizer := Tokenizer.from_params p1.1,
          token_indexers := TokenIndexer.dict_from_params p2.1,
          lazy := false }

/-- A string is a JSON string literal value. -/
def Json.isStr : Json → Bool
  | .str _ => true
  | _ => false

/-- A JSON array all of whose items are strings. -/
def isStrArr : Json → Bool
  | .arr items => items.all Json.isStr
  | _ => false

/-- A decoded line is a well-formed record in the sense of the data model:
a JSON object whose `label` is a string and whose `sentence` and `pos` are
arrays of strings (extra keys such as `sentence_text` are allowed). -/
def isRecordJson : Json → Bool
  | .obj kvs =>
    (match kvs.find? (fun kv => kv.1 == "label") with
     | some kv => kv.2.isStr
     | none => false) &&
    (match kvs.find? (fun kv => kv.1 == "sentence") with
     | some kv => isStrArr kv.2
     | none => false) &&
    (match kvs.find? (fun kv => kv.1 == "pos") with
     | some kv => isStrArr kv.2
     | none => false)
  | _ => false

/-- A line of the input file is well-formed: it parses as JSON and the
decoded value is a well-formed record. -/
def isWellFormedLine (l : String) : Bool :=
  match jsonLoads l with
  | .ok j => isRecordJson j
  | .error _ => false

/-- The first of the keys `label`, `sentence`, `pos` (in the order `_read`
accesses them) missing from a decoded JSON object, if any. -/
def firstMissingKey (kvs : List (String × Json)) : Option String :=
  if (kvs.find? (fun kv => kv.1 == "label")).isNone then some "label"
  else if (kvs.find? (fun kv => kv.1 == "sentence")).isNone then some "sentence"
  else if (kvs.find? (fun kv => kv.1 == "pos")).isNone then some "pos"
  else none

/-- The shape shared by every instance the adapter builds: a `sentence` and a
`pos` text field, both carrying the indexer mapping `ix`, and no field named
anything but `sentence`, `pos`, `label`. -/
def fieldsInvariant {α β I : Type} (ix : I) (inst : Instance α β I) : Prop :=
  (∃ ts, inst.getField "sentence" = some (Field.textField ts ix)) ∧
  (∃ ts, inst.getField "pos" = some (Field.textField ts ix)) ∧
  (∀ nf ∈ inst.fields, nf.1 = "sentence" ∨ nf.1 = "pos" ∨ nf.1 = "label") ∧
  (∀ nf ∈ inst.fields, ∀ ts ix2, nf.2 = Field.textField ts ix2 → ix2 = ix)

/-- A sample reader for concrete evaluations: the tokenizer collaborator is
irrelevant (here `Unit`) and the indexer mapping is an opaque tag. -/
def sampleReader : PubmedRCTReader Unit String :=
  { tokenizer := (), token_indexers := "single-id-by-tokens", lazy := false }

/-- The spec's literal example line, newline terminator included. -/
def sampleLine1 : String :=
  "\x7b\"label\": \"METHODS\", \"sentence\": [\"we\", \"used\", \"survey\", \".\"], \"pos\": [\"PRP\", \"VBD\", \"NN\", \".\"], \"sentence_text\": \"We used survey.\"\x7d\n"

/-- A second well-formed line, with an empty label and empty token lists. -/
def sampleLine2 : String :=
  "\x7b\"label\": \"\", \"sentence\": [], \"pos\": []\x7d\n"

/-- A line that is a JSON object but has no `pos` key. -/
def sampleLineNoPos : String :=
  "\x7b\"label\": \"RESULTS\", \"sentence\": [\"ok\"]\x7d\n"

/-- A line that is not valid JSON. -/
def sampleLineBad : String := "not json\n"

/-- Readers identical except for the injected tokenizer. -/
def readerA : PubmedRCTReader String String :=
  { tokenizer := "word-tokenizer", token_indexers := "single-id-by-tokens", lazy := false }

/-- Readers identical except for the injected tokenizer. -/
def readerB : PubmedRCTReader String String :=
  { tokenizer := "char-tokenizer", token_indexers := "single-id-by-tokens", lazy := false }

/-! ### Helper lemmas -/

theorem read_nil {T I : Type} (r : PubmedRCTReader T I) : r._read [] = ([], none) := rfl

theorem read_cons_ok {T I : Type} (r : PubmedRCTReader T I) {l : String} {ls : List String}
    {inst : Instance Json Json I} (h : processLine r l = .ok inst) :
    r._read (l :: ls) = (inst :: (r._read ls).1, (r._read ls).2) := by
  simp [PubmedRCTReader._read, h]

theorem read_cons_err {T I : Type} (r : PubmedRCTReader T I) {l : String} {ls : List String}
    {e : PyError} (h : processLine r l = .error e) :
    r._read (l :: ls) = ([], some e) := by
  simp [PubmedRCTReader._read, h]

theorem read_append_ok {T I : Type} (r : PubmedRCTReader T I) (pre rest : List String)
    (hpre : ∀ p ∈ pre, (processLine r p).isOk = true) :
    (r._read (pre ++ rest)).1.map (fun i => (Except.ok i : Except PyError (Instance Json Json I)))
        = pre.map (processLine r)
          ++ (r._read rest).1.map (fun i => (Except.ok i : Except PyError (Instance Json Json I))) ∧
    (r._read (pre ++ rest)).2 = (r._read rest).2 := by
  induction pre with
  | nil => simp
  | cons p ps ih =>
    have hp : (processLine r p).isOk = true := hpre p (by simp)
    rcases ho : processLine r p with e | inst
    · rw [ho] at hp; simp [Except.isOk, Except.toBool] at hp
    · have hrest := ih (fun q hq => hpre q (by simp [hq]))
      rw [List.cons_append, read_cons_ok r ho]
      simp [ho, hrest.1, hrest.2]

theorem processLine_ok_of_wf {T I : Type} (r : PubmedRCTReader T I) (l : String)
    (h : isWellFormedLine l = true) : (processLine r l).isOk = true := by
  unfold isWellFormedLine at h
  rcases hj : jsonLoads l with msg | j <;> rw [hj] at h
  · simp at h
  rcases j with _ | b | raw | s | items | kvs
  · simp [isRecordJson] at h
  · simp [isRecordJson] at h
  · simp [isRecordJson] at h
  · simp [isRecordJson] at h
  · simp [isRecordJson] at h
  simp only [isRecordJson, Bool.and_eq_true] at h
  obtain ⟨⟨h1, h2⟩, h3⟩ := h
  rcases hf1 : kvs.find? (fun kv => kv.1 == "label") with _ | kv1 <;> rw [hf1] at h1
  · simp at h1
  rcases hf2 : kvs.find? (fun kv => kv.1 == "sentence") with _ | kv2 <;> rw [hf2] at h2
  · simp at h2
  rcases hf3 : kvs.find? (fun kv => kv.1 == "pos") with _ | kv3 <;> rw [hf3] at h3
  · simp at h3
  have h2' : isStrArr kv2.2 = true := h2
  have h3' : isStrArr kv3.2 = true := h3
  rcases hv2 : kv2.2 with _ | b2 | raw2 | s2 | items2 | kvs2 <;> rw [hv2] at h2' <;>
    try simp [isStrArr] at h2'
  rcases hv3 : kv3.2 with _ | b3 | raw3 | s3 | items3 | kvs3 <;> rw [hv3] at h3' <;>
    try simp [isStrArr] at h3'
  simp [processLine, hj, Json.getItem, hf1, hf2, hf3, hv2, hv3, pyIter, Except.isOk,
    Except.toBool]

theorem skipWs_of_all_ws {cs : List Char} (h : cs.all isJsonWs = true) : skipWs cs = [] := by
  induction cs with
  | nil => rfl
  | cons c cs ih =>
    simp only [List.all_cons, Bool.and_eq_true] at h
    simp [skipWs, h.1, ih h.2]

theorem jsonLoads_ws_only {s : String} (h : s.data.all isJsonWs = true) :
    jsonLoads s = .error (.jsonDecodeError "Expecting value") := by
  have hskip : skipWs s.data = [] := skipWs_of_all_ws h
  obtain ⟨n, hn⟩ : ∃ n, 2 * s.length + 2 = n + 1 := ⟨2 * s.length + 1, rfl⟩
  unfold jsonLoads
  rw [hn, parseVal, hskip]

theorem processLine_ws_only {T I : Type} (r : PubmedRCTReader T I) {l : String}
    (h : l.data.all isJsonWs = true) :
    processLine r l = .error (.jsonDecodeError "Expecting value") := by
  simp [processLine, jsonLoads_ws_only h]

theorem processLine_invalid_json {T I : Type} (r : PubmedRCTReader T I) {l : String}
    {msg : String} (h : jsonLoads l = .error (.jsonDecodeError msg)) :
    processLine r l = .error (.jsonDecodeError msg) := by
  simp [processLine, h]

theorem processLine_missing_key {T I : Type} (r : PubmedRCTReader T I) (l : String)
    (kvs : List (String × Json)) (k : String)
    (hobj : jsonLoads l = .ok (.obj kvs)) (hk : firstMissingKey kvs = some k) :
    processLine r l = .error (.keyError k) := by
  unfold firstMissingKey at hk
  split_ifs at hk with h1 h2 h3
  · obtain rfl : "label" = k := by injection hk
    have hf : kvs.find? (fun kv => kv.1 == "label") = none :=
      Option.isNone_iff_eq_none.mp h1
    simp [processLine, hobj, Json.getItem, hf]
  · obtain rfl : "sentence" = k := by injection hk
    rcases hf1 : kvs.find? (fun kv => kv.1 == "label") with _ | kv1
    · rw [hf1] at h1; simp at h1
    have hf2 : kvs.find? (fun kv => kv.1 == "sentence") = none :=
      Option.isNone_iff_eq_none.mp h2
    simp [processLine, hobj, Json.getItem, hf1, hf2]
  · obtain rfl : "pos" = k := by injection hk
    rcases hf1 : kvs.find? (fun kv => kv.1 == "label") with _ | kv1
    · rw [hf1] at h1; simp at h1
    rcases hf2 : kvs.find? (fun kv => kv.1 == "sentence") with _ | kv2
    · rw [hf2] at h2; simp at h2
    have hf3 : kvs.find? (fun kv => kv.1 == "pos") = none :=
      Option.isNone_iff_eq_none.mp h3
    simp [processLine, hobj, Json.getItem, hf1, hf2, hf3]

theorem processLine_ok_shape {T I : Type} (r : PubmedRCTReader T I) (l : String)
    (inst : Instance Json Json I) (h : processLine r l = .ok inst) :
    ∃ s p lab, inst = r.text_to_instance Json.truthy s p (some lab) := by
  unfold processLine at h
  split at h
  · simp at h
  split at h
  · simp at h
  split at h
  · simp at h
  split at h
  · simp at h
  split at h
  · simp at h
  split at h
  · simp at h
  injection h with h'
  exact ⟨_, _, _, h'.symm⟩

theorem read_instances_shape {T I : Type} (r : PubmedRCTReader T I) (lines : List String) :
    ∀ inst ∈ (r._read lines).1, ∃ s p lab, inst = r.text_to_instance Json.truthy s p (some lab) := by
  induction lines with
  | nil => simp [PubmedRCTReader._read]
  | cons l ls ih =>
    intro inst hmem
    rcases ho : processLine r l with e | i
    · rw [read_cons_err r ho] at hmem; simp at hmem
    · rw [read_cons_ok r ho] at hmem
      rcases List.mem_cons.mp hmem with rfl | hmem'
      · exact processLine_ok_shape r l inst ho
      · exact ih inst hmem'

theorem mem_pop_entries (p : Params) (key : String) (d : Json) (k : String) (v : Json)
    (hmem : (k, v) ∈ p.entries) (hne : k ≠ key) : (k, v) ∈ (p.pop key d).2.entries := by
  unfold Params.pop
  rcases hf : p.entries.find? (fun kv => kv.1 == key) with _ | kv <;> rw [hf]
  · simpa using hmem
  · simp [List.mem_filter, hmem, hne]

theorem text_to_instance_getField_sentence {T I α β : Type} (r : PubmedRCTReader T I)
    (truthy : β → Bool) (sent pos : List α) (label : Option β) :
    (r.text_to_instance truthy sent pos label).getField "sentence"
      = some (Field.textField (sent.map Token.mk) r.token_indexers) := by
  unfold PubmedRCTReader.text_to_instance Instance.getField
  rcases label with _ | lab
  · simp [List.find?]
  · by_cases ht : truthy lab <;> simp [ht, List.find?]

theorem text_to_instance_getField_pos {T I α β : Type} (r : PubmedRCTReader T I)
    (truthy : β → Bool) (sent pos : List α) (label : Option β) :
    (r.text_to_instance truthy sent pos label).getField "pos"
      = some (Field.textField (pos.map Token.mk) r.token_indexers) := by
  unfold PubmedRCTReader.text_to_instance Instance.getField
  rcases label with _ | lab
  · simp [List.find?]
  · by_cases ht : truthy lab <;> simp [ht, List.find?]

theorem text_to_instance_fields_eq {T I α β : Type} (r : PubmedRCTReader T I)
    (truthy : β → Bool) (sent pos : List α) (label : Option β) :
    (r.text_to_instance truthy sent pos label).fields
      = [("sentence", Field.textField (sent.map Token.mk) r.token_indexers),
         ("pos", Field.textField (pos.map Token.mk) r.token_indexers)]
        ++ (match label with
            | some lab => if truthy lab then [("label", Field.labelField lab)] else []
            | none => []) := by
  unfold PubmedRCTReader.text_to_instance
  rcases label with _ | lab
  · simp
  · by_cases ht : truthy lab <;> simp [ht]

theorem fieldsInvariant_text_to_instance {T I α β : Type} (r : PubmedRCTReader T I)
    (truthy : β → Bool) (sent pos : List α) (label : Option β) :
    fieldsInvariant r.token_indexers (r.text_to_instance truthy sent pos label) := by
  refine ⟨⟨sent.map Token.mk, text_to_instance_getField_sentence r truthy sent pos label⟩,
          ⟨pos.map Token.mk, text_to_instance_getField_pos r truthy sent pos label⟩, ?_, ?_⟩
  · intro nf hnf
    rw [text_to_instance_fields_eq] at hnf
    rcases label with _ | lab
    · simp at hnf
      rcases hnf with rfl | rfl
      · left; rfl
      · right; left; rfl
    · by_cases ht : truthy lab
      · simp [ht] at hnf
        rcases hnf with rfl | rfl | rfl
        · left; rfl
        · right; left; rfl
        · right; right; rfl
      · simp [ht] at hnf
        rcases hnf with rfl | rfl
        · left; rfl
        · right; left; rfl
  · intro nf hnf ts ix2 heq
    rw [text_to_instance_fields_eq] at hnf
    rcases label with _ | lab
    · simp at hnf
      rcases hnf with rfl | rfl <;>
        (injection heq with h1 h2; exact h2.symm)
    · by_cases ht : truthy lab
      · simp [ht] at hnf
        rcases hnf with rfl | rfl | rfl
        · injection heq with h1 h2; exact h2.symm
        · injection heq with h1 h2; exact h2.symm
        · simp at heq
      · simp [ht] at hnf
        rcases hnf with rfl | rfl <;>
          (injection heq with h1 h2; exact h2.symm)

theorem map_mk_text {α : Type} (xs : List α) :
    List.map ((fun t => t.text) ∘ (Token.mk : α → Token α)) xs = xs := by
  induction xs with
  | nil => rfl
  | cons x xs ih => simp only [List.map_cons, Function.comp_apply]; rw [ih]

/-! ### Claim theorems -/

/-- C1: for every file all of whose lines are well-formed records (valid JSON
objects whose `label` is a string and whose `sentence` and `pos` are arrays
of strings), `_read` raises no error and yields exactly one instance per
line, each being the result of processing that very line, in file order. -/
theorem read_wellformed_one_example_per_line {T I : Type} (r : PubmedRCTReader T I)
    (lines : List String) (h : ∀ l ∈ lines, isWellFormedLine l = true) :
    (r._read lines).2 = none ∧
    (r._read lines).1.length = lines.length ∧
    (r._read lines).1.map (fun i => (Except.ok i : Except PyError (Instance Json Json I)))
      = lines.map (processLine r) := by
  have key := read_append_ok r lines [] (fun p hp => processLine_ok_of_wf r p (h p hp))
  rw [List.append_nil] at key
  have hmap : (r._read lines).1.map
      (fun i => (Except.ok i : Except PyError (Instance Json Json I)))
      = lines.map (processLine r) := by simpa [read_nil] using key.1
  refine ⟨by simpa using key.2, ?_, hmap⟩
  have hlen : ((r._read lines).1.map
      (fun i => (Except.ok i : Except PyError (Instance Json Json I)))).length
      = (lines.map (processLine r)).length := by rw [hmap]
  simpa using hlen

/-- Witness for C1: the spec's literal example line followed by an
empty-label record give two instances, in order, and no error. -/
theorem read_wellformed_one_example_per_line_witness :
    (sampleReader._read [sampleLine1, sampleLine2]).2 = none ∧
    (sampleReader._read [sampleLine1, sampleLine2]).1.length
      = [sampleLine1, sampleLine2].length ∧
    (sampleReader._read [sampleLine1, sampleLine2]).1.map
        (fun i => (Except.ok i : Except PyError (Instance Json Json String)))
      = [sampleLine1, sampleLine2].map (processLine sampleReader) :=
  read_wellformed_one_example_per_line sampleReader [sampleLine1, sampleLine2] (by decide)

/-- C2: for any token lists `sent` and `pos`, the instance's `sentence` field
holds exactly the tokens of `sent` and its `pos` field exactly the tokens of
`pos` — same length, same entries, same order. -/
theorem text_to_instance_token_fields {T I α β : Type} (r : PubmedRCTReader T I)
    (truthy : β → Bool) (sent pos : List α) (label : Option β) :
    ((r.text_to_instance truthy sent pos label).getField "sentence").bind Field.tokenTexts
        = some sent ∧
    ((r.text_to_instance truthy sent pos label).getField "pos").bind Field.tokenTexts
        = some pos := by
  constructor
  · rw [text_to_instance_getField_sentence]
    simp [Field.tokenTexts, map_mk_text]
  · rw [text_to_instance_getField_pos]
    simp [Field.tokenTexts, map_mk_text]

/-- C3: the instance has a `label` field exactly when the supplied label is a
non-empty string (none when it is `None` or the empty string), and then the
field's value is that string itself. -/
theorem text_to_instance_label_field {T I α : Type} (r : PubmedRCTReader T I)
    (sent pos : List α) (label : Option String) :
    (r.text_to_instance strTruthy sent pos label).getField "label"
      = label.bind (fun lab =>
          if lab = "" then none
          else some (Field.labelField lab)) := by
  unfold PubmedRCTReader.text_to_instance Instance.getField
  rcases label with _ | lab
  · simp [List.find?]
  · by_cases hlab : lab = ""
    · simp [hlab, strTruthy, List.find?]
    · simp [hlab, strTruthy, List.find?]

/-- C4: when the lines before `l` all process successfully and `l` parses as
a JSON object missing one of the keys `label`, `sentence`, `pos` (with `k`
the first missing one in the code's access order), `_read` stops with the
uncaught `KeyError` for `k` and yields exactly the instances of the earlier
lines. -/
theorem read_missing_key_lookup_error {T I : Type} (r : PubmedRCTReader T I)
    (pre : List String) (l : String) (post : List String)
    (kvs : List (String × Json)) (k : String)
    (hpre : ∀ p ∈ pre, (processLine r p).isOk = true)
    (hobj : jsonLoads l = .ok (.obj kvs))
    (hk : firstMissingKey kvs = some k) :
    (r._read (pre ++ l :: post)).2 = some (.keyError k) ∧
    (r._read (pre ++ l :: post)).1.map
        (fun i => (Except.ok i : Except PyError (Instance Json Json I)))
      = pre.map (processLine r) := by
  have hl := processLine_missing_key r l kvs k hobj hk
  have happ := read_append_ok r pre (l :: post) hpre
  rw [read_cons_err r hl] at happ
  exact ⟨by simpa using happ.2, by simpa using happ.1⟩

/-- Witness for C4: a good line followed by an object lacking `pos` gives a
`KeyError "pos"` after one instance. -/
theorem read_missing_key_lookup_error_witness :
    (sampleReader._read ([sampleLine1] ++ sampleLineNoPos :: [])).2
      = some (.keyError "pos") ∧
    (sampleReader._read ([sampleLine1] ++ sampleLineNoPos :: [])).1.map
        (fun i => (Except.ok i : Except PyError (Instance Json Json String)))
      = [sampleLine1].map (processLine sampleReader) :=
  read_missing_key_lookup_error sampleReader [sampleLine1] sampleLineNoPos []
    [("label", Json.str "RESULTS"), ("sentence", Json.arr [Json.str "ok"])] "pos"
    (by decide) (by rfl) (by rfl)

/-- C5: when the lines before `l` all process successfully and `l` is not
valid JSON, `_read` raises the parse failure at `l` and every instance it
yielded comes from a line strictly before `l`; nothing after `l` is read and
`l` is not skipped. -/
theorem read_invalid_json_stops {T I : Type} (r : PubmedRCTReader T I)
    (pre : List String) (l : String) (post : List String) (msg : String)
    (hpre : ∀ p ∈ pre, (processLine r p).isOk = true)
    (hinv : jsonLoads l = .error (.jsonDecodeError msg)) :
    (r._read (pre ++ l :: post)).2 = some (.jsonDecodeError msg) ∧
    (r._read (pre ++ l :: post)).1.map
        (fun i => (Except.ok i : Except PyError (Instance Json Json I)))
      = pre.map (processLine r) := by
  have hl := processLine_invalid_json r hinv
  have happ := read_append_ok r pre (l :: post) hpre
  rw [read_cons_err r hl] at happ
  exact ⟨by simpa using happ.2, by simpa using happ.1⟩

/-- Witness for C5: a good line, then `"not json"`, then another good line:
one instance is yielded and the read stops with the parse failure. -/
theorem read_invalid_json_stops_witness :
    (sampleReader._read ([sampleLine1] ++ sampleLineBad :: [sampleLine2])).2
      = some (.jsonDecodeError "Expecting value") ∧
    (sampleReader._read ([sampleLine1] ++ sampleLineBad :: [sampleLine2])).1.map
        (fun i => (Except.ok i : Except PyError (Instance Json Json String)))
      = [sampleLine1].map (processLine sampleReader) :=
  read_invalid_json_stops sampleReader [sampleLine1] sampleLineBad [sampleLine2]
    "Expecting value" (by decide) (by rfl)

/-- C6 counterexample: on the file whose single line is empty (`"\n"`),
`_read` yields no instance and raises a JSON parse error — so an empty line
is parsed, is not skipped, and does cause an error. -/
theorem read_empty_line_causes_error_cex :
    sampleReader._read ["\n"] = ([], some (.jsonDecodeError "Expecting value")) ∧
    (sampleReader._read ["\n"]).2 ≠ none := by
  constructor
  · rfl
  · intro hnone
    rw [show (sampleReader._read ["\n"]).2
        = some (PyError.jsonDecodeError "Expecting value") from rfl] at hnone
    exact Option.noConfusion hnone

/-- C6 amended: `_read` hands every line to the JSON parser, empty ones
included: a whitespace-only line (such as an empty line, read as `"\n"`)
contributes no instance but raises the parse error `Expecting value`,
terminating the read after the instances of the earlier lines. -/
theorem read_parses_every_line {T I : Type} (r : PubmedRCTReader T I)
    (pre : List String) (l : String) (post : List String)
    (hpre : ∀ p ∈ pre, (processLine r p).isOk = true)
    (hws : l.data.all isJsonWs = true) :
    (r._read (pre ++ l :: post)).2 = some (.jsonDecodeError "Expecting value") ∧
    (r._read (pre ++ l :: post)).1.map
        (fun i => (Except.ok i : Except PyError (Instance Json Json I)))
      = pre.map (processLine r) := by
  have hl := processLine_ws_only r hws
  have happ := read_append_ok r pre (l :: post) hpre
  rw [read_cons_err r hl] at happ
  exact ⟨by simpa using happ.2, by simpa using happ.1⟩

/-- Witness for the amended C6: a good line, an empty line, a good line. -/
theorem read_parses_every_line_witness :
    (sampleReader._read ([sampleLine1] ++ "\n" :: [sampleLine2])).2
      = some (.jsonDecodeError "Expecting value") ∧
    (sampleReader._read ([sampleLine1] ++ "\n" :: [sampleLine2])).1.map
        (fun i => (Except.ok i : Except PyError (Instance Json Json String)))
      = [sampleLine1].map (processLine sampleReader) :=
  read_parses_every_line sampleReader [sampleLine1] "\n" [sampleLine2]
    (by decide) (by decide)

/-- C7: `from_params` on a configuration holding any key other than
`tokenizer` and `token_indexers` returns the `ConfigurationError` raised by
`assert_empty` — construction fails, so no reader exists to read with. -/
theorem from_params_unrecognized_key_fails (p : Params) (k : String) (v : Json)
    (hmem : (k, v) ∈ p.entries) (h1 : k ≠ "tokenizer") (h2 : k ≠ "token_indexers") :
    PubmedRCTReader.from_params p
      = .error (.configurationError "Extra parameters passed to PubmedRCTReader") := by
  have m1 := mem_pop_entries p "tokenizer" (.obj []) k v hmem h1
  have m2 := mem_pop_entries (p.pop "tokenizer" (.obj [])).2 "token_indexers" (.obj [])
    k v m1 h2
  have hne : ¬ ((((p.pop "tokenizer" (.obj [])).2.pop
      "token_indexers" (.obj [])).2.entries.isEmpty) = true) := by
    rw [List.isEmpty_iff]
    exact List.ne_nil_of_mem m2
  unfold PubmedRCTReader.from_params Params.assert_empty
  simp [hne]

/-- Witness for C7: the config `\x7b"foo": 1\x7d` is rejected at construction. -/
theorem from_params_unrecognized_key_fails_witness :
    PubmedRCTReader.from_params ⟨[("foo", Json.num "1")]⟩
      = .error (.configurationError "Extra parameters passed to PubmedRCTReader") :=
  from_params_unrecognized_key_fails ⟨[("foo", Json.num "1")]⟩ "foo" (Json.num "1")
    (by simp) (by decide) (by decide)

/-- C8: `text_to_instance` is total over token-list inputs and validates
nothing: whatever the two lists are — empty, or of unequal lengths — the
result is the instance whose text fields wrap exactly those lists, and an
empty `sentence` list yields an empty text field rather than an error. -/
theorem text_to_instance_no_validation {T I α β : Type} (r : PubmedRCTReader T I)
    (truthy : β → Bool) (sent pos : List α) (label : Option β) :
    ((r.text_to_instance truthy sent pos label).getField "sentence"
        = some (Field.textField (sent.map Token.mk) r.token_indexers) ∧
     (r.text_to_instance truthy sent pos label).getField "pos"
        = some (Field.textField (pos.map Token.mk) r.token_indexers)) ∧
    (r.text_to_instance truthy ([] : List α) pos label).getField "sentence"
        = some (Field.textField ([] : List (Token α)) r.token_indexers) := by
  refine ⟨⟨text_to_instance_getField_sentence r truthy sent pos label,
           text_to_instance_getField_pos r truthy sent pos label⟩, ?_⟩
  simpa using text_to_instance_getField_sentence r truthy ([] : List α) pos label

/-- C9: the injected tokenizer is never consulted: two readers agreeing on
`token_indexers` (even with tokenizers of different types) build identical
instances from identical inputs. -/
theorem text_to_instance_ignores_tokenizer {T T' I α β : Type}
    (r1 : PubmedRCTReader T I) (r2 : PubmedRCTReader T' I)
    (h : r1.token_indexers = r2.token_indexers)
    (truthy : β → Bool) (sent pos : List α) (label : Option β) :
    r1.text_to_instance truthy sent pos label
      = r2.text_to_instance truthy sent pos label := by
  unfold PubmedRCTReader.text_to_instance
  rw [h]

/-- Witness for C9: two sample readers differing only in their tokenizer
produce the same instance. -/
theorem text_to_instance_ignores_tokenizer_witness :
    readerA.text_to_instance strTruthy ["we"] ["PRP"] (some "METHODS")
      = readerB.text_to_instance strTruthy ["we"] ["PRP"] (some "METHODS") :=
  text_to_instance_ignores_tokenizer readerA readerB rfl
    strTruthy ["we"] ["PRP"] (some "METHODS")

/-- C10: every instance the adapter builds — directly via `text_to_instance`
and hence every instance `_read` yields — has a `sentence` and a `pos` text
field, both carrying the reader's single `token_indexers`, and no field named
anything other than `sentence`, `pos`, `label`. -/
theorem instance_fields_all_invariant {T I α β : Type} (r : PubmedRCTReader T I)
    (truthy : β → Bool) (sent pos : List α) (label : Option β) :
    fieldsInvariant r.token_indexers (r.text_to_instance truthy sent pos label) ∧
    ∀ (lines : List String), ∀ inst ∈ (r._read lines).1,
      fieldsInvariant r.token_indexers inst := by
  refine ⟨fieldsInvariant_text_to_instance r truthy sent pos label, ?_⟩
  intro lines inst hmem
  obtain ⟨s, p, lab, rfl⟩ := read_instances_shape r lines inst hmem
  exact fieldsInvariant_text_to_instance r Json.truthy s p (some lab)

end PubmedRCT
